import Mathlib

/-!
Verification of the TradeSupport frontend session/streaming client layer.

This file gives a shallow embedding of the observer-side code of the
repository — the `useWebSocket` hook (the Reconnecting Client), the
`api.startAnalysis` request helper and the `App.handleStartAnalysis`
caller — and proves the behavioural properties claimed of them.

The embedding models React state (`useState`) and refs (`useRef`) as the
fields of an explicit record, and each event handler installed by the hook
(`onopen`, `onmessage`, `onclose`, the scheduled reconnect timer, the mount
effect and its cleanup, `clearMessages`) as a function on that record.
Console output performed by a handler is returned explicitly as a list of
effects, so that "logged locally" and "handled once" become provable facts.
-/

namespace TradeSupport

/-- Analysis lifecycle state, from `frontend/src/types/index.ts`:
`type AnalysisState = 'idle' | 'running' | 'stopped' | 'error'`. -/
inductive AnalysisState
  | idle
  | running
  | stopped
  | error
deriving DecidableEq, Repr

/-- Tagged union of messages carried by the WebSocket stream, from
`frontend/src/types/index.ts` (`WebSocketMessage`): `log` carries a text
line and a timestamp string `ts`, `status` carries an `AnalysisState`,
`result` carries an opaque payload (modelled as a string), `ping` carries
nothing. -/
inductive WebSocketMessage
  | log (message : String) (ts : String)
  | status (state : AnalysisState)
  | result (payload : String)
  | ping
deriving DecidableEq, Repr

/-- An incoming transport frame as seen by `ws.onmessage`: either
`JSON.parse(event.data)` succeeds and yields a `WebSocketMessage`, or it
throws (a malformed frame). -/
inductive Frame
  | parsed (m : WebSocketMessage)
  | malformed
deriving DecidableEq, Repr

/-- Ready state of the socket object held in `wsRef`. `connecting` is the
state of a freshly constructed `WebSocket` before `onopen` fires; `opened`
is `WebSocket.OPEN`. -/
inductive WsReadyState
  | connecting
  | opened
deriving DecidableEq, Repr

/-- The fixed reconnect delay, from `useWebSocket.ts`:
`const RECONNECT_DELAY = 3000;` (milliseconds). -/
def RECONNECT_DELAY : Nat := 3000

/-- The caller-visible state plus the refs of one `useWebSocket` instance:
`isConnected`, `messages` and `state` are the `useState` values returned to
the caller; `wsRef` is `wsRef.current` (`none` = `null`); `pendingReconnect`
records a scheduled-but-not-yet-fired reconnect timer together with the
delay (in ms) it was scheduled with (`none` = no pending retry);
`shouldConnect` is `shouldConnectRef.current`. -/
structure HookState where
  isConnected : Bool
  messages : List String
  state : AnalysisState
  wsRef : Option WsReadyState
  pendingReconnect : Option Nat
  shouldConnect : Bool
deriving DecidableEq, Repr

/-- The hook's state at first render: `useState(false)`, `useState([])`,
`useState('idle')`, `useRef(null)`, `useRef(null)`, `useRef(true)`. -/
def initialState : HookState :=
  { isConnected := false
  , messages := []
  , state := AnalysisState.idle
  , wsRef := none
  , pendingReconnect := none
  , shouldConnect := true }

/-- The `connect` callback: returns immediately when the current socket's
ready state is `OPEN` or the should-connect intent is cleared; otherwise
constructs a new `WebSocket` (initially connecting) and stores it in
`wsRef`. -/
def connect (s : HookState) : HookState :=
  if s.wsRef = some WsReadyState.opened ∨ s.shouldConnect = false then s
  else { s with wsRef := some WsReadyState.connecting }

/-- The `ws.onopen` handler: sets `isConnected` to `true` and clears any
pending reconnect timer (`clearTimeout` + null the ref); the socket that
fired the event is now in ready state `OPEN`. -/
def onopen (s : HookState) : HookState :=
  { s with isConnected := true
         , wsRef := some WsReadyState.opened
         , pendingReconnect := none }

/-- One line of the log accumulator as built by the `log` branch of
`ws.onmessage`: the template literal `[timestamp] message` where
`timestamp` is `new Date(data.ts).toLocaleTimeString()`. The locale
formatter is environment-dependent, so it is a parameter `fmt`. -/
def logLine (fmt : String → String) (ts message : String) : String :=
  "[" ++ fmt ts ++ "] " ++ message

/-- Console output a single `ws.onmessage` invocation can perform:
`console.log('Received result:', data.payload)` on the `result` branch, or
`console.error('Failed to parse WebSocket message:', error)` in the catch
block. -/
inductive ConsoleEffect
  | resultLogged (payload : String)
  | parseErrorLogged
deriving DecidableEq, Repr

/-- The `ws.onmessage` handler. On a parse failure the catch block logs the
error and nothing else happens. On success the message is dispatched by
tag: `ping` is ignored silently; `log` appends one formatted line to
`messages`; `status` replaces `state`; `result` logs the payload to the
console. Returns the updated hook state together with the console effects
performed. -/
def onmessage (fmt : String → String) (s : HookState) (f : Frame) :
    HookState × List ConsoleEffect :=
  match f with
  | Frame.malformed => (s, [ConsoleEffect.parseErrorLogged])
  | Frame.parsed m =>
    match m with
    | WebSocketMessage.ping => (s, [])
    | WebSocketMessage.log message ts =>
        ({ s with messages := s.messages ++ [logLine fmt ts message] }, [])
    | WebSocketMessage.status st => ({ s with state := st }, [])
    | WebSocketMessage.result payload =>
        (s, [ConsoleEffect.resultLogged payload])

/-- The `ws.onclose` handler: sets `isConnected` to `false`, nulls `wsRef`,
and — only while the should-connect intent is still set — schedules one
reconnect attempt via `setTimeout(connect, RECONNECT_DELAY)`. -/
def onclose (s : HookState) : HookState :=
  if s.shouldConnect then
    { s with isConnected := false, wsRef := none
           , pendingReconnect := some RECONNECT_DELAY }
  else
    { s with isConnected := false, wsRef := none }

/-- Firing of a scheduled reconnect timer: the timer is no longer pending
and its callback invokes `connect`. When no timer is pending nothing
happens. -/
def timerFire (s : HookState) : HookState :=
  match s.pendingReconnect with
  | none => s
  | some _ => connect { s with pendingReconnect := none }

/-- The mount effect body: sets `shouldConnectRef.current = true` and calls
`connect()`. -/
def mount (s : HookState) : HookState :=
  connect { s with shouldConnect := true }

/-- The effect cleanup run on unmount: clears the should-connect intent,
cancels any pending reconnect timer (`clearTimeout`), closes the open
socket and nulls `wsRef`. -/
def cleanup (s : HookState) : HookState :=
  { s with shouldConnect := false, pendingReconnect := none, wsRef := none }

/-- The `clearMessages` callback returned to the caller:
`setMessages([])`. -/
def clearMessages (s : HookState) : HookState :=
  { s with messages := [] }

/-- Events that can act on one hook instance after its first render. -/
inductive HookEvent
  | sockOpen
  | sockClose
  | frame (f : Frame)
  | fireReconnect
  | unmountCleanup
  | clear
deriving DecidableEq, Repr

/-- Small-step interpretation of a single event against the hook state. -/
def step (fmt : String → String) (s : HookState) (e : HookEvent) : HookState :=
  match e with
  | HookEvent.sockOpen => onopen s
  | HookEvent.sockClose => onclose s
  | HookEvent.frame f => (onmessage fmt s f).1
  | HookEvent.fireReconnect => timerFire s
  | HookEvent.unmountCleanup => cleanup s
  | HookEvent.clear => clearMessages s

/-- Runs a sequence of events from a state. -/
def run (fmt : String → String) (s : HookState) (es : List HookEvent) : HookState :=
  es.foldl (step fmt) s

/-- Folds the state component of `onmessage` over a list of incoming
frames. -/
def processFrames (fmt : String → String) (s : HookState) (fs : List Frame) :
    HookState :=
  fs.foldl (fun t f => (onmessage fmt t f).1) s

/-- An HTTP response as observed by `api.startAnalysis`: the `ok` flag, and
the outcome of `response.json()` on the error path — `none` when the body
does not parse as JSON (the `.catch` substitutes `{detail: 'Unknown
error'}`), `some d` when it parses with `d` its optional `detail` field. -/
structure HttpResponse where
  ok : Bool
  jsonBody : Option (Option String)
deriving DecidableEq, Repr

/-- The client-side `api.startAnalysis`: posts the request once; when the
response is not ok it throws `new Error(error.detail || 'Failed to start
analysis')`, where `error` is the parsed body or, if parsing fails,
`{detail: 'Unknown error'}`; a missing or empty (falsy) `detail` selects
the fallback message. -/
def startAnalysis (resp : HttpResponse) : Except String Unit :=
  if resp.ok then Except.ok ()
  else
    let errDetail : Option String :=
      match resp.jsonBody with
      | none => some "Unknown error"
      | some d => d
    Except.error
      (match errDetail with
       | some d => if d = "" then "Failed to start analysis" else d
       | none => "Failed to start analysis")

/-- The caller-visible pieces of `App` state touched by
`handleStartAnalysis`: the displayed error banner, the `isStarting` flag
and the log accumulator it clears through `clearMessages`. -/
structure AppState where
  error : Option String
  isStarting : Bool
  messages : List String
deriving DecidableEq, Repr

/-- `App.handleStartAnalysis`: clears the error banner, sets `isStarting`,
clears the log accumulator, then awaits `api.startAnalysis` exactly once;
on rejection it displays the rejection message and resets `isStarting`.
The second component counts the start requests issued (the single `fetch`
inside `startAnalysis`; there is no retry and no queue). -/
def handleStartAnalysis (s : AppState) (resp : HttpResponse) : AppState × Nat :=
  let s1 : AppState := { s with error := none, isStarting := true, messages := [] }
  match startAnalysis resp with
  | Except.ok _ => (s1, 1)
  | Except.error msg => ({ s1 with error := some msg, isStarting := false }, 1)

/-- A concrete hook state of a connected client mid-run, used to
instantiate the theorems below on explicit inputs. -/
def connectedState : HookState :=
  { isConnected := true
  , messages := ["[10:00:00] Fetching market data..."]
  , state := AnalysisState.running
  , wsRef := some WsReadyState.opened
  , pendingReconnect := none
  , shouldConnect := true }

/-- The concrete state reached by running the unmount cleanup on
`connectedState`. -/
def tornDownState : HookState := cleanup connectedState

/-- C1: on an incoming `result` message the handler emits exactly one
result-handling effect carrying the payload (the single
`console.log('Received result:', ...)`, the only handling the client
performs), and the hook state — in particular the `messages` log
accumulator — is unchanged. -/
theorem result_handled_once_no_log_append (fmt : String → String)
    (s : HookState) (p : String) :
    onmessage fmt s (Frame.parsed (WebSocketMessage.result p))
      = (s, [ConsoleEffect.resultLogged p]) := rfl

/-- C2: on an incoming `ping` message the handler performs no console
effect and returns the hook state unchanged: neither `messages` nor
`state` (nor anything else) is touched, and nothing is surfaced. -/
theorem ping_silent (fmt : String → String) (s : HookState) :
    onmessage fmt s (Frame.parsed WebSocketMessage.ping) = (s, []) := rfl

/-- C3: a malformed frame is logged locally via `console.error`, the hook
state is entirely unchanged (so `messages`, `state`, `isConnected` and the
socket in `wsRef` are untouched and the connection is not closed), and
only that single frame is discarded: processing any frame sequence that
starts with the malformed frame is the same as processing the rest. -/
theorem malformed_frame_logged_isolated (fmt : String → String)
    (s : HookState) (rest : List Frame) :
    onmessage fmt s Frame.malformed = (s, [ConsoleEffect.parseErrorLogged]) ∧
    (onmessage fmt s Frame.malformed).1.isConnected = s.isConnected ∧
    (onmessage fmt s Frame.malformed).1.wsRef = s.wsRef ∧
    processFrames fmt s (Frame.malformed :: rest) = processFrames fmt s rest :=
  ⟨rfl, rfl, rfl, rfl⟩

/-- The close handler never touches the log accumulator. -/
theorem onclose_messages (s : HookState) : (onclose s).messages = s.messages := by
  unfold onclose; split <;> rfl

/-- The `connect` callback never touches the log accumulator. -/
theorem connect_messages (s : HookState) : (connect s).messages = s.messages := by
  unfold connect; split <;> rfl

/-- A reconnect timer firing never touches the log accumulator. -/
theorem timerFire_messages (s : HookState) :
    (timerFire s).messages = s.messages := by
  unfold timerFire
  cases hp : s.pendingReconnect with
  | none => rfl
  | some d => exact (connect_messages _).trans rfl

/-- C5: after a disconnect (`onclose`) followed by a successful
reconnection (`onopen`) of the same hook instance — also through the full
cycle close, retry-timer firing, open — the connectivity flag is `true`
again, and the log accumulator is preserved: the close handler and the
open handler each leave `messages` exactly as it was. -/
theorem reconnect_restores_connectivity_preserves_log (fmt : String → String)
    (s : HookState) :
    (onopen (onclose s)).isConnected = true ∧
    (onopen (onclose s)).messages = s.messages ∧
    (onclose s).messages = s.messages ∧
    (onopen s).messages = s.messages ∧
    (run fmt s [HookEvent.sockClose, HookEvent.fireReconnect,
        HookEvent.sockOpen]).isConnected = true ∧
    (run fmt s [HookEvent.sockClose, HookEvent.fireReconnect,
        HookEvent.sockOpen]).messages = s.messages := by
  have hrun : run fmt s [HookEvent.sockClose, HookEvent.fireReconnect,
      HookEvent.sockOpen] = onopen (timerFire (onclose s)) := rfl
  refine ⟨rfl, onclose_messages s, onclose_messages s, rfl, ?_, ?_⟩
  · rw [hrun]; rfl
  · rw [hrun]
    show (timerFire (onclose s)).messages = s.messages
    rw [timerFire_messages, onclose_messages]

/-- C6: an incoming `log` message appends exactly one entry, built from
its `ts` and `message` fields, to the end of the log accumulator, leaving
every earlier entry in place (the old list is a prefix) and leaving
`state` alone; an incoming `status` message sets `state` to the carried
state and leaves the log accumulator untouched. -/
theorem log_appends_status_updates (fmt : String → String) (s : HookState)
    (message ts : String) (st : AnalysisState) :
    (onmessage fmt s (Frame.parsed (WebSocketMessage.log message ts))).1.messages
        = s.messages ++ [logLine fmt ts message] ∧
    ((onmessage fmt s (Frame.parsed (WebSocketMessage.log message ts))).1.messages.take
        s.messages.length = s.messages) ∧
    (onmessage fmt s (Frame.parsed (WebSocketMessage.log message ts))).1.state
        = s.state ∧
    (onmessage fmt s (Frame.parsed (WebSocketMessage.status st))).1.state = st ∧
    (onmessage fmt s (Frame.parsed (WebSocketMessage.status st))).1.messages
        = s.messages := by
  refine ⟨rfl, ?_, rfl, rfl, rfl⟩
  simp [onmessage, List.take_left]

/-- C9: immediately after creation — at the first render values and still
after the mount effect has run `connect` (before any message arrives) —
the caller sees `isConnected = false`, an empty `messages` list, and
`state = 'idle'`. -/
theorem initial_caller_visible_state :
    initialState.isConnected = false ∧
    initialState.messages = [] ∧
    initialState.state = AnalysisState.idle ∧
    (mount initialState).isConnected = false ∧
    (mount initialState).messages = [] ∧
    (mount initialState).state = AnalysisState.idle := by
  refine ⟨rfl, rfl, rfl, ?_, ?_, ?_⟩ <;> decide

/-- C10: `clearMessages` empties the log accumulator and changes nothing
else: connectivity flag, current-state field, connection intent, socket
ref and any pending reconnect timer are all exactly as before. -/
theorem clearMessages_only_clears_log (s : HookState) :
    (clearMessages s).messages = [] ∧
    (clearMessages s).isConnected = s.isConnected ∧
    (clearMessages s).state = s.state ∧
    (clearMessages s).shouldConnect = s.shouldConnect ∧
    (clearMessages s).wsRef = s.wsRef ∧
    (clearMessages s).pendingReconnect = s.pendingReconnect :=
  ⟨rfl, rfl, rfl, rfl, rfl, rfl⟩

/-- The `connect` callback never touches the pending reconnect timer. -/
theorem connect_pendingReconnect (s : HookState) :
    (connect s).pendingReconnect = s.pendingReconnect := by
  unfold connect; split <;> rfl

/-- No branch of the message handler touches the pending reconnect
timer. -/
theorem onmessage_pendingReconnect (fmt : String → String) (s : HookState)
    (f : Frame) :
    ((onmessage fmt s f).1).pendingReconnect = s.pendingReconnect := by
  cases f with
  | malformed => rfl
  | parsed m => cases m <;> rfl

/-- The close handler either schedules the fixed delay or leaves the timer
alone. -/
theorem onclose_pendingReconnect (s : HookState) :
    (onclose s).pendingReconnect = some RECONNECT_DELAY ∨
    (onclose s).pendingReconnect = s.pendingReconnect := by
  unfold onclose
  split
  · exact Or.inl rfl
  · exact Or.inr rfl

/-- A timer firing either consumes the timer or finds none pending. -/
theorem timerFire_pendingReconnect (s : HookState) :
    (timerFire s).pendingReconnect = none ∨
    (timerFire s).pendingReconnect = s.pendingReconnect := by
  unfold timerFire
  cases hp : s.pendingReconnect with
  | none => exact Or.inl hp
  | some d => exact Or.inl ((connect_pendingReconnect _).trans rfl)

/-- Every single step preserves the fact that the pending reconnect timer,
when present, was scheduled with exactly the fixed `RECONNECT_DELAY`: no
handler ever schedules any other delay. -/
theorem step_preserves_fixed_delay (fmt : String → String) (s : HookState)
    (e : HookEvent)
    (h : s.pendingReconnect = none ∨ s.pendingReconnect = some RECONNECT_DELAY) :
    (step fmt s e).pendingReconnect = none ∨
    (step fmt s e).pendingReconnect = some RECONNECT_DELAY := by
  cases e with
  | sockOpen => exact Or.inl rfl
  | sockClose =>
    show (onclose s).pendingReconnect = none ∨
        (onclose s).pendingReconnect = some RECONNECT_DELAY
    rcases onclose_pendingReconnect s with hc | hc
    · exact Or.inr hc
    · rw [hc]; exact h
  | frame f =>
    show ((onmessage fmt s f).1).pendingReconnect = none ∨
        ((onmessage fmt s f).1).pendingReconnect = some RECONNECT_DELAY
    rw [onmessage_pendingReconnect]; exact h
  | fireReconnect =>
    show (timerFire s).pendingReconnect = none ∨
        (timerFire s).pendingReconnect = some RECONNECT_DELAY
    rcases timerFire_pendingReconnect s with ht | ht
    · exact Or.inl ht
    · rw [ht]; exact h
  | unmountCleanup => exact Or.inl rfl
  | clear => exact h

/-- Along any run of events, the pending reconnect timer only ever carries
the fixed delay. -/
theorem run_preserves_fixed_delay (fmt : String → String) (es : List HookEvent) :
    ∀ s : HookState,
      s.pendingReconnect = none ∨ s.pendingReconnect = some RECONNECT_DELAY →
      (run fmt s es).pendingReconnect = none ∨
      (run fmt s es).pendingReconnect = some RECONNECT_DELAY := by
  induction es with
  | nil => intro s h; exact h
  | cons e es ih =>
    intro s h
    exact ih (step fmt s e) (step_preserves_fixed_delay fmt s e h)

/-- C4: the reconnect delay constant is 3000 ms; every connection loss
(error or normal close both run `onclose`) while the should-connect intent
is `true` schedules exactly one retry with exactly that delay — whatever
state the client is in, so the retry repeats after every subsequent loss
and no retry counter exists to stop it; no loss schedules a retry once the
intent is cleared; and along any run of events the scheduled delay never
grows: it is always exactly `RECONNECT_DELAY` (no backoff). -/
theorem reconnect_fixed_delay_no_backoff (fmt : String → String)
    (es : List HookEvent) :
    RECONNECT_DELAY = 3000 ∧
    (∀ t : HookState, t.shouldConnect = true →
        (onclose t).pendingReconnect = some RECONNECT_DELAY ∧
        (onclose t).isConnected = false ∧ (onclose t).wsRef = none) ∧
    (∀ t : HookState, t.shouldConnect = false →
        (onclose t).pendingReconnect = t.pendingReconnect) ∧
    (∀ t : HookState, ∀ d : Nat, t.pendingReconnect = some d →
        timerFire t = connect { t with pendingReconnect := none }) ∧
    (∀ t : HookState,
        t.pendingReconnect = none ∨ t.pendingReconnect = some RECONNECT_DELAY →
        (run fmt t es).pendingReconnect = none ∨
        (run fmt t es).pendingReconnect = some RECONNECT_DELAY) := by
  refine ⟨rfl, ?_, ?_, ?_, run_preserves_fixed_delay fmt es⟩
  · intro t ht
    unfold onclose
    rw [if_pos ht]
    exact ⟨rfl, rfl, rfl⟩
  · intro t ht
    unfold onclose
    rw [if_neg (by rw [ht]; exact Bool.false_ne_true)]
  · intro t d hd
    unfold timerFire
    rw [hd]

/-- Witness for C4 at concrete inputs: a close on the connected state
schedules a 3000 ms retry, a close on the torn-down state schedules
nothing, and the delay along a concrete run stays fixed. -/
theorem reconnect_fixed_delay_no_backoff_witness :
    ((onclose connectedState).pendingReconnect = some RECONNECT_DELAY ∧
     (onclose connectedState).isConnected = false ∧
     (onclose connectedState).wsRef = none) ∧
    (onclose tornDownState).pendingReconnect = tornDownState.pendingReconnect ∧
    timerFire (onclose connectedState)
      = connect { onclose connectedState with pendingReconnect := none } ∧
    ((run (fun ts => ts) connectedState
        [HookEvent.sockClose, HookEvent.fireReconnect,
         HookEvent.sockOpen, HookEvent.sockClose]).pendingReconnect = none ∨
     (run (fun ts => ts) connectedState
        [HookEvent.sockClose, HookEvent.fireReconnect,
         HookEvent.sockOpen, HookEvent.sockClose]).pendingReconnect
       = some RECONNECT_DELAY) :=
  ⟨(reconnect_fixed_delay_no_backoff (fun ts => ts) []).2.1 connectedState rfl,
   (reconnect_fixed_delay_no_backoff (fun ts => ts) []).2.2.1 tornDownState rfl,
   (reconnect_fixed_delay_no_backoff (fun ts => ts) []).2.2.2.1
     (onclose connectedState) RECONNECT_DELAY rfl,
   (reconnect_fixed_delay_no_backoff (fun ts => ts)
      [HookEvent.sockClose, HookEvent.fireReconnect,
       HookEvent.sockOpen, HookEvent.sockClose]).2.2.2.2 connectedState
     (Or.inl rfl)⟩

/-- A concrete client state waiting out the reconnect delay: no socket,
intent still set, a retry scheduled at the fixed delay — the state reached
by a connection loss on `connectedState`. -/
def pendingRetryState : HookState := onclose connectedState

/-- C7: the should-connect intent starts `true` (at creation and again
after the mount effect) and, from every state whatsoever — including one
holding a pending scheduled retry — the unmount cleanup clears the intent,
cancels any pending scheduled retry and closes/nulls the socket; after
that teardown `connect` is a no-op and a reconnect timer firing is a
no-op; and in general `connect` is a no-op whenever the socket is already
open or the intent is false. -/
theorem intent_lifecycle_teardown (s : HookState) :
    initialState.shouldConnect = true ∧
    (mount s).shouldConnect = true ∧
    (cleanup s).shouldConnect = false ∧
    (cleanup s).pendingReconnect = none ∧
    (cleanup s).wsRef = none ∧
    connect (cleanup s) = cleanup s ∧
    timerFire (cleanup s) = cleanup s ∧
    (s.wsRef = some WsReadyState.opened ∨ s.shouldConnect = false →
      connect s = s) := by
  refine ⟨rfl, ?_, rfl, rfl, rfl, ?_, rfl, ?_⟩
  · unfold mount connect
    split <;> rfl
  · unfold connect
    exact if_pos (Or.inr rfl)
  · intro h
    unfold connect
    exact if_pos h

/-- Witness for C7 at concrete inputs: `pendingRetryState` really does
hold a pending 3000 ms retry with the intent set and no socket, its
teardown cancels that retry, clears the intent and nulls the socket, and
afterwards neither `connect` nor a timer firing does anything; and
`connect` is a no-op on the connected state (socket open). -/
theorem intent_lifecycle_teardown_witness :
    pendingRetryState.pendingReconnect = some RECONNECT_DELAY ∧
    pendingRetryState.shouldConnect = true ∧
    pendingRetryState.wsRef = none ∧
    (cleanup pendingRetryState).shouldConnect = false ∧
    (cleanup pendingRetryState).pendingReconnect = none ∧
    (cleanup pendingRetryState).wsRef = none ∧
    connect (cleanup pendingRetryState) = cleanup pendingRetryState ∧
    timerFire (cleanup pendingRetryState) = cleanup pendingRetryState ∧
    connect connectedState = connectedState := by
  have h := intent_lifecycle_teardown pendingRetryState
  have h2 := intent_lifecycle_teardown connectedState
  exact ⟨rfl, rfl, rfl, h.2.2.1, h.2.2.2.1, h.2.2.2.2.1, h.2.2.2.2.2.1,
    h.2.2.2.2.2.2.1, h2.2.2.2.2.2.2.2 (Or.inl rfl)⟩

/-- Characterization of `api.startAnalysis` on a not-ok response: it
throws, with the message selected from the parsed body's `detail` field,
falling back to `'Unknown error'` when the body does not parse and to
`'Failed to start analysis'` when `detail` is absent or falsy. -/
theorem startAnalysis_not_ok (jb : Option (Option String)) :
    startAnalysis { ok := false, jsonBody := jb } =
      Except.error
        (match jb with
         | none => "Unknown error"
         | some none => "Failed to start analysis"
         | some (some d) => if d = "" then "Failed to start analysis" else d) := by
  rcases jb with _ | (_ | d) <;> rfl

/-- C8: when the start response is not ok (e.g. the 409 Conflict rejection
for a start while a run is active), `startAnalysis` rejects with the
server-supplied `detail` message when one is present and non-empty, and
otherwise with a fallback message; `handleStartAnalysis` surfaces that
rejection message as the displayed error and resets `isStarting`; and
exactly one start request is issued — the rejection is neither retried nor
queued. -/
theorem start_rejection_surfaced_no_retry (s : AppState) (resp : HttpResponse)
    (h : resp.ok = false) :
    ∃ msg : String,
      startAnalysis resp = Except.error msg ∧
      (∀ d : String, resp.jsonBody = some (some d) → d ≠ "" → msg = d) ∧
      (resp.jsonBody = some none → msg = "Failed to start analysis") ∧
      (resp.jsonBody = some (some "") → msg = "Failed to start analysis") ∧
      (resp.jsonBody = none → msg = "Unknown error") ∧
      (handleStartAnalysis s resp).1.error = some msg ∧
      (handleStartAnalysis s resp).1.isStarting = false ∧
      (handleStartAnalysis s resp).2 = 1 := by
  obtain ⟨ok, jb⟩ := resp
  subst h
  refine ⟨_, startAnalysis_not_ok jb, ?_, ?_, ?_, ?_, ?_, ?_, ?_⟩
  · rintro d hd hne
    rcases jb with _ | (_ | d') <;> simp_all
  · rintro rfl; rfl
  · rintro rfl; rfl
  · rintro rfl; rfl
  all_goals
    rw [handleStartAnalysis, startAnalysis_not_ok jb]

/-- Witness for C8 at a concrete input: a 409-style response whose body
carries the detail message of a conflicting start. -/
theorem start_rejection_surfaced_no_retry_witness :
    ∃ msg : String,
      startAnalysis
          { ok := false, jsonBody := some (some "Analysis is already running") }
        = Except.error msg ∧
      (∀ d : String,
          (some (some "Analysis is already running") :
              Option (Option String)) = some (some d) → d ≠ "" → msg = d) ∧
      ((some (some "Analysis is already running") : Option (Option String))
          = some none → msg = "Failed to start analysis") ∧
      ((some (some "Analysis is already running") : Option (Option String))
          = some (some "") → msg = "Failed to start analysis") ∧
      ((some (some "Analysis is already running") : Option (Option String))
          = none → msg = "Unknown error") ∧
      (handleStartAnalysis
          { error := none, isStarting := false, messages := [] }
          { ok := false
          , jsonBody := some (some "Analysis is already running") }).1.error
        = some msg ∧
      (handleStartAnalysis
          { error := none, isStarting := false, messages := [] }
          { ok := false
          , jsonBody := some (some "Analysis is already running") }).1.isStarting
        = false ∧
      (handleStartAnalysis
          { error := none, isStarting := false, messages := [] }
          { ok := false
          , jsonBody := some (some "Analysis is already running") }).2 = 1 :=
  start_rejection_surfaced_no_retry
    { error := none, isStarting := false, messages := [] }
    { ok := false, jsonBody := some (some "Analysis is already running") }
    rfl

end TradeSupport
